import Mathlib

/-!
# Verification of the metadata core of `music_meta_tagger`

Shallow embedding of `src/metadata_logic.py` (and the apply gate of
`src/app.py`) of the repository `pbrazeale/music_meta_tagger`.

Modelling conventions:
* Python's dynamically typed canonical field values become the sum type
  `Value` (`None`, `str`, `list[str]`, the `(track, total)` tuple produced
  by `parse_track_number`, and `int` for ratings).
* Python `dict`s used as tag containers become association lists
  `List (String × _)`; assignment is remove-then-append (the behaviour of
  mutagen's `VCommentDict.__setitem__` and equivalent, up to key order, for
  the plain-dict containers).
* Fallible Python code (`int(...)`, tuple unpacking, `.encode` on a
  non-string) returns `Except String _`; the error string carries the
  exception message.
* `str.strip` is modelled by `String.trim` (ASCII whitespace); Python
  `int()` literals are modelled for ASCII digits with an optional sign and
  underscore separators.
-/

deriving instance DecidableEq for Except

namespace MusicMetaTagger

/-! ### String utilities

The corresponding core-library functions (`String.trim`, `String.toLower`,
`String.splitOn`) are defined by well-founded recursion over byte positions,
which the kernel cannot evaluate; these structurally recursive versions over
the character list compute the same functions. -/

/-- Python `str.strip()` (ASCII whitespace). -/
def strTrim (s : String) : String :=
  String.mk
    (((s.toList.dropWhile Char.isWhitespace).reverse.dropWhile Char.isWhitespace).reverse)

/-- Python `str.lower()` on the ASCII range. -/
def strLower (s : String) : String :=
  String.mk (s.toList.map Char.toLower)

/-- Split a character list at every character satisfying `p`, keeping empty
segments (the semantics of `re.split` on a single-character class and of
`str.split(sep)` for a one-character separator). -/
def splitPredAux (p : Char → Bool) : List Char → List Char → List String
  | [], acc => [String.mk acc.reverse]
  | c :: rest, acc =>
      if p c then String.mk acc.reverse :: splitPredAux p rest []
      else splitPredAux p rest (c :: acc)

/-- Split a string at every character satisfying `p`. -/
def splitPred (p : Char → Bool) (s : String) : List String :=
  splitPredAux p s.toList []

/-- A dynamically typed Python value as used for canonical field values:
`None`, `str`, `list[str]`, the `(track, Optional[total])` tuple returned by
`parse_track_number`, or an `int` (ratings). -/
inductive Value where
  | vNone
  | vStr (s : String)
  | vStrList (l : List String)
  | vTrack (track : Int) (total : Option Int)
  | vInt (n : Int)
deriving DecidableEq, Repr

/-- The apostrophe character used by Python's `repr` of strings. -/
def pyQuote : String := String.mk [Char.ofNat 39]

/-- `str` applied to an `Optional[int]`. -/
def pyStrOptInt : Option Int → String
  | none => "None"
  | some n => toString n

/-- Python `str(value)` on a `Value`. -/
def pyStr : Value → String
  | .vNone => "None"
  | .vStr s => s
  | .vInt n => toString n
  | .vStrList l =>
      "[" ++ String.intercalate ", " (l.map (fun s => pyQuote ++ s ++ pyQuote)) ++ "]"
  | .vTrack t tot => "(" ++ toString t ++ ", " ++ pyStrOptInt tot ++ ")"

/-- Digit run of a Python integer literal after the optional sign: digits with
single underscores allowed strictly between digits. Accumulates the value. -/
def pyDigitsAux : List Char → Nat → Option Nat
  | [], acc => some acc
  | ['_'], _ => none
  | '_' :: c :: rest, acc =>
      if c.isDigit then pyDigitsAux (c :: rest) acc else none
  | c :: rest, acc =>
      if c.isDigit then pyDigitsAux rest (acc * 10 + (c.toNat - 48)) else none

/-- Nonempty digit run (first character must be a digit). -/
def pyDigits : List Char → Option Nat
  | [] => none
  | c :: rest => if c.isDigit then pyDigitsAux (c :: rest) 0 else none

/-- Python `int(s)` on a string: strip, optional sign, digit run.
Returns `none` when the literal is invalid (a `ValueError` in Python). -/
def pyParseInt (s : String) : Option Int :=
  match (strTrim s).toList with
  | '+' :: rest => (pyDigits rest).map Int.ofNat
  | '-' :: rest => (pyDigits rest).map (fun n => -(n : Int))
  | cs => (pyDigits cs).map Int.ofNat

/-- Python `int(value)` on a `Value`; raises (returns `.error`) on an invalid
string literal or a non-numeric type. -/
def pyInt : Value → Except String Int
  | .vInt n => .ok n
  | .vStr s =>
      match pyParseInt s with
      | some n => .ok n
      | none =>
          .error ("invalid literal for int() with base 10: " ++ pyQuote ++ s ++ pyQuote)
  | v => .error ("int() argument must be a string or a number, not " ++ pyStr v)

/-- Truthiness of an `Optional[int]` in Python: `None` and `0` are falsy. -/
def optIntTruthy : Option Int → Bool
  | none => false
  | some n => n != 0

/-- `sanitize_text` from `src/metadata_logic.py`: `None` passes through,
otherwise `str(value).strip()`, with the empty result mapped to `None`. -/
def sanitize_text : Value → Option String
  | .vNone => none
  | v =>
      let text := strTrim (pyStr v)
      if text = "" then none else some text

/-- `parse_people`: split the sanitized text on `;` or `,`, strip each part,
drop empty parts; an empty result is `None`. -/
def parse_people (v : Value) : Option (List String) :=
  match sanitize_text v with
  | none => none
  | some text =>
      let parts := ((splitPred (fun c => c = ';' || c = ',') text).map strTrim).filter
        (fun p => p ≠ "")
      if parts = [] then none else some parts

/-- The regex `^\d{4}(-\d{1,2}(-\d{1,2})?)?$` of `parse_year`, on ASCII
digits. -/
def yearRegexMatch (t : String) : Bool :=
  match splitPred (fun c => c = '-') t with
  | [y] => y.length == 4 && y.toList.all Char.isDigit
  | [y, m] =>
      y.length == 4 && y.toList.all Char.isDigit &&
      (m.length == 1 || m.length == 2) && m.toList.all Char.isDigit
  | [y, m, d] =>
      y.length == 4 && y.toList.all Char.isDigit &&
      (m.length == 1 || m.length == 2) && m.toList.all Char.isDigit &&
      (d.length == 1 || d.length == 2) && d.toList.all Char.isDigit
  | _ => false

/-- `parse_year`: blank input yields no field, a non-matching value raises
`ValueError("Use YYYY or YYYY-MM-DD format.")`. -/
def parse_year (v : Value) : Except String (Option String) :=
  match sanitize_text v with
  | none => .ok none
  | some text =>
      if yearRegexMatch text then .ok (some text)
      else .error "Use YYYY or YYYY-MM-DD format."

/-- `text.split("/", 1)` when `"/"` occurs in `text`, else `(text, "")` —
exactly the `first, second` assignment of `parse_track_number`. -/
def splitSlashOnce (text : String) : String × String :=
  match splitPred (fun c => c = '/') text with
  | [] => (text, "")
  | [t] => (t, "")
  | t :: rest => (t, String.intercalate "/" rest)

/-- `parse_track_number` from `src/metadata_logic.py`. -/
def parse_track_number (v : Value) : Except String (Option (Int × Option Int)) :=
  match sanitize_text v with
  | none => .ok none
  | some text =>
      let fs := splitSlashOnce text
      match pyParseInt (strTrim fs.1) with
      | none => .error "Track must be an integer."
      | some track =>
          let totalRes : Except String (Option Int) :=
            if strTrim fs.2 ≠ "" then
              match pyParseInt (strTrim fs.2) with
              | none => .error "Total tracks must be an integer."
              | some t => .ok (some t)
            else .ok none
          match totalRes with
          | .error e => .error e
          | .ok total =>
              if track < 0 then .error "Track must be positive."
              else
                match total with
                | some t =>
                    if t < track then
                      .error "Total tracks cannot be smaller than the track number."
                    else .ok (some (track, some t))
                | none => .ok (some (track, none))

/-- The canonical field names, in the order of `FIELD_DEFS`. -/
def canonicalFieldNames : List String :=
  ["title", "subtitle", "rating", "comments", "artists",
   "album_artist", "album", "year", "track_number", "genre"]

/-- `FIELD_LABELS.get(name, name)`: UI label for a field name. -/
def fieldLabel (name : String) : String :=
  if name = "title" then "Title"
  else if name = "subtitle" then "Subtitle"
  else if name = "rating" then "Rating"
  else if name = "comments" then "Comments"
  else if name = "artists" then "Contributing artists"
  else if name = "album_artist" then "Album artist"
  else if name = "album" then "Album"
  else if name = "year" then "Year"
  else if name = "track_number" then "Track number"
  else if name = "genre" then "Genre"
  else name

/-- Re-inject an `Optional[str]` parse result as a `Value`. -/
def ofOptStr : Option String → Value
  | none => .vNone
  | some s => .vStr s

/-- The per-field parser dispatch `FIELD_PARSERS.get(name, lambda v: v)`
applied to a raw value; `.error` carries the `ValueError` message. -/
def runFieldParser (name : String) (v : Value) : Except String Value :=
  if name = "title" then .ok (ofOptStr (sanitize_text v))
  else if name = "subtitle" then .ok (ofOptStr (sanitize_text v))
  else if name = "rating" then .ok v
  else if name = "comments" then .ok (ofOptStr (sanitize_text v))
  else if name = "artists" then
    .ok (match parse_people v with
         | none => .vNone
         | some l => .vStrList l)
  else if name = "album_artist" then .ok (ofOptStr (sanitize_text v))
  else if name = "album" then .ok (ofOptStr (sanitize_text v))
  else if name = "year" then (parse_year v).map ofOptStr
  else if name = "track_number" then
    (parse_track_number v).map (fun r =>
      match r with
      | none => .vNone
      | some (t, tot) => .vTrack t tot)
  else if name = "genre" then .ok (ofOptStr (sanitize_text v))
  else .ok v

/-- `parsed is None` of `collect_updates`. -/
def isNoneValue : Value → Bool
  | .vNone => true
  | _ => false

/-- `isinstance(parsed, list) and not parsed` of `collect_updates`. -/
def isEmptyListValue : Value → Bool
  | .vStrList [] => true
  | _ => false

/-- One loop iteration of `collect_updates`. -/
def collectStep (acc : List (String × Value) × List String) (nv : String × Value) :
    List (String × Value) × List String :=
  match runFieldParser nv.1 nv.2 with
  | .error msg => (acc.1, acc.2 ++ [fieldLabel nv.1 ++ ": " ++ msg])
  | .ok parsed =>
      if isNoneValue parsed then acc
      else if isEmptyListValue parsed then acc
      else (acc.1 ++ [(nv.1, parsed)], acc.2)

/-- `collect_updates` from `src/metadata_logic.py`: the raw inputs dict is
modelled as an (insertion-ordered) association list. -/
def collect_updates (raw : List (String × Value)) :
    List (String × Value) × List String :=
  raw.foldl collectStep ([], [])

/-- The contribution of one raw input to the update set of
`collect_updates`: `some` exactly when its parser succeeds with a value that
is neither `None` nor an empty list. -/
def keepField (nv : String × Value) : Option (String × Value) :=
  match runFieldParser nv.1 nv.2 with
  | .error _ => none
  | .ok parsed =>
      if isNoneValue parsed then none
      else if isEmptyListValue parsed then none
      else some (nv.1, parsed)

/-- The contribution of one raw input to the error list of
`collect_updates`: the label-prefixed message exactly when its parser
raises. -/
def fieldError (nv : String × Value) : Option String :=
  match runFieldParser nv.1 nv.2 with
  | .error msg => some (fieldLabel nv.1 ++ ": " ++ msg)
  | .ok _ => none

/-! ## Association-list model of dict-like tag containers -/

/-- `del m[k]` / removal of every entry with key `k`. -/
def delKey {α : Type} (k : String) (m : List (String × α)) : List (String × α) :=
  m.filter (fun p => p.1 ≠ k)

/-- `m[k] = v`: remove existing entries for `k`, append the new one. -/
def setKey {α : Type} (k : String) (v : α) (m : List (String × α)) :
    List (String × α) :=
  delKey k m ++ [(k, v)]

/-- `k in m`. -/
def hasKey {α : Type} (k : String) (m : List (String × α)) : Bool :=
  m.any (fun p => p.1 == k)

/-- `m.get(k, d)` for an `int`-keyed dict (the rating tables). -/
def dictGetD (m : List (Int × Int)) (k : Int) (d : Int) : Int :=
  match m.find? (fun p => p.1 == k) with
  | some p => p.2
  | none => d

/-! ## Rating tables -/

/-- `RATING_TO_POPM` from `src/metadata_logic.py`. -/
def RATING_TO_POPM : List (Int × Int) :=
  [(0, 0), (1, 1), (2, 64), (3, 128), (4, 196), (5, 255)]

/-- `RATING_TO_MP4` from `src/metadata_logic.py`. -/
def RATING_TO_MP4 : List (Int × Int) :=
  [(0, 0), (1, 20), (2, 40), (3, 60), (4, 80), (5, 100)]

/-- `RATING_TO_ASF` from `src/metadata_logic.py`. -/
def RATING_TO_ASF : List (Int × Int) :=
  [(0, 0), (1, 1), (2, 25), (3, 50), (4, 75), (5, 99)]

/-! ## ID3 (MP3) container -/

/-- An ID3 frame as constructed by `MP3TagHandler.set_field` (all text frames
use `encoding=3`; only the distinguishing payloads are modelled). -/
inductive ID3Frame where
  | textFrame (fid : String) (txt : List String)
  | comm (lang : String) (desc : String) (txt : List String)
  | popm (email : String) (rate : Int) (count : Int)
deriving DecidableEq, Repr

/-- The four-character frame ID used by `delall`. -/
def ID3Frame.fid : ID3Frame → String
  | .textFrame i _ => i
  | .comm _ _ _ => "COMM"
  | .popm _ _ _ => "POPM"

/-- `self.audio.delall(fid)`. -/
def delall (fid : String) (fs : List ID3Frame) : List ID3Frame :=
  fs.filter (fun fr => fr.fid ≠ fid)

/-- mutagen's text-frame payload coercion: a list is stored as-is, a single
value is wrapped (canonical string values are stored unchanged). -/
def asTextList : Value → List String
  | .vStrList l => l
  | v => [pyStr v]

/-- `MP3TagHandler.set_field`. The `delall` preceding a raising `int(value)`
is not recorded on the error path: an exception aborts `apply` before `save`,
so the partially mutated in-memory state is never observed. -/
def mp3SetField (field : String) (value : Value) (audio : List ID3Frame) :
    Except String (List ID3Frame) :=
  if field = "title" then
    .ok (delall "TIT2" audio ++ [.textFrame "TIT2" [pyStr value]])
  else if field = "subtitle" then
    .ok (delall "TIT3" audio ++ [.textFrame "TIT3" [pyStr value]])
  else if field = "comments" then
    .ok (delall "COMM" audio ++ [.comm "eng" "" [pyStr value]])
  else if field = "artists" then
    .ok (delall "TPE1" audio ++ [.textFrame "TPE1" (asTextList value)])
  else if field = "album_artist" then
    .ok (delall "TPE2" audio ++ [.textFrame "TPE2" [pyStr value]])
  else if field = "album" then
    .ok (delall "TALB" audio ++ [.textFrame "TALB" [pyStr value]])
  else if field = "year" then
    .ok (delall "TDRC" audio ++ [.textFrame "TDRC" [pyStr value]])
  else if field = "track_number" then
    match value with
    | .vTrack track total =>
        let trackText :=
          if optIntTruthy total then toString track ++ "/" ++ pyStrOptInt total
          else toString track
        .ok (delall "TRCK" audio ++ [.textFrame "TRCK" [trackText]])
    | _ => .error "cannot unpack non-iterable value"
  else if field = "genre" then
    .ok (delall "TCON" audio ++ [.textFrame "TCON" [pyStr value]])
  else if field = "rating" then
    match pyInt value with
    | .ok r =>
        .ok (delall "POPM" audio ++
          [.popm "Windows Media Player 9 Series" (dictGetD RATING_TO_POPM r 0) 0])
    | .error e => .error e
  else .ok audio

/-! ## FLAC (Vorbis comment) container -/

/-- The `track_number` branch of `FLACTagHandler.set_field`: set
`tracknumber`; set `tracktotal` when the total is truthy, else delete it if
present. -/
def flacTrackUpdate (track : Int) (total : Option Int)
    (audio : List (String × List String)) : List (String × List String) :=
  let a1 := setKey "tracknumber" [toString track] audio
  if optIntTruthy total then setKey "tracktotal" [pyStrOptInt total] a1
  else if hasKey "tracktotal" a1 then delKey "tracktotal" a1
  else a1

/-- `FLACTagHandler.set_field`: the Vorbis comment dict maps lower-case keys
to lists of strings. -/
def flacSetField (field : String) (value : Value)
    (audio : List (String × List String)) :
    Except String (List (String × List String)) :=
  if field = "title" then .ok (setKey "title" [pyStr value] audio)
  else if field = "subtitle" then .ok (setKey "subtitle" [pyStr value] audio)
  else if field = "comments" then .ok (setKey "comment" [pyStr value] audio)
  else if field = "artists" then .ok (setKey "artist" (asTextList value) audio)
  else if field = "album_artist" then .ok (setKey "albumartist" [pyStr value] audio)
  else if field = "album" then .ok (setKey "album" [pyStr value] audio)
  else if field = "year" then .ok (setKey "date" [pyStr value] audio)
  else if field = "track_number" then
    match value with
    | .vTrack track total => .ok (flacTrackUpdate track total audio)
    | _ => .error "cannot unpack non-iterable value"
  else if field = "genre" then .ok (setKey "genre" [pyStr value] audio)
  else if field = "rating" then .ok (setKey "rating" [pyStr value] audio)
  else .ok audio

/-! ## MP4 (iTunes atom) container -/

/-- A value stored in an MP4 atom by `MP4TagHandler.set_field`: lists of
strings, of UTF-8 byte strings, of `(track, total)` pairs, or of ints. -/
inductive MP4Value where
  | strs (l : List String)
  | bytes (l : List String)
  | pairs (l : List (Int × Int))
  | ints (l : List Int)
deriving DecidableEq, Repr

/-- `MP4TagHandler.set_field`. -/
def mp4SetField (field : String) (value : Value)
    (audio : List (String × MP4Value)) :
    Except String (List (String × MP4Value)) :=
  if field = "title" then .ok (setKey "\xa9nam" (.strs [pyStr value]) audio)
  else if field = "subtitle" then
    match value with
    | .vStr s => .ok (setKey "----:com.apple.iTunes:SUBTITLE" (.bytes [s]) audio)
    | _ => .error "value has no attribute encode"
  else if field = "comments" then .ok (setKey "\xa9cmt" (.strs [pyStr value]) audio)
  else if field = "artists" then .ok (setKey "\xa9ART" (.strs (asTextList value)) audio)
  else if field = "album_artist" then .ok (setKey "aART" (.strs [pyStr value]) audio)
  else if field = "album" then .ok (setKey "\xa9alb" (.strs [pyStr value]) audio)
  else if field = "year" then .ok (setKey "\xa9day" (.strs [pyStr value]) audio)
  else if field = "track_number" then
    match value with
    | .vTrack track total =>
        .ok (setKey "trkn"
          (.pairs [(track, if optIntTruthy total then total.getD 0 else 0)]) audio)
    | _ => .error "cannot unpack non-iterable value"
  else if field = "genre" then .ok (setKey "\xa9gen" (.strs [pyStr value]) audio)
  else if field = "rating" then
    match pyInt value with
    | .ok r => .ok (setKey "rate" (.ints [dictGetD RATING_TO_MP4 r 0]) audio)
    | .error e => .error e
  else .ok audio

/-! ## ASF (WMA) container -/

/-- A value stored in an ASF attribute: mutagen wraps a Python `str` as a
unicode attribute and an `int` as a word attribute. -/
inductive ASFValue where
  | str (s : String)
  | int (n : Int)
deriving DecidableEq, Repr

/-- mutagen's wrapping of an assigned value into an ASF attribute. -/
def asASFValue : Value → ASFValue
  | .vInt n => .int n
  | v => .str (pyStr v)

/-- The `track_number` branch of `ASFTagHandler.set_field`: set
`WM/TrackNumber`; set `WM/TrackTotal` when the total is truthy, else delete
it if present. -/
def asfTrackUpdate (track : Int) (total : Option Int)
    (audio : List (String × ASFValue)) : List (String × ASFValue) :=
  let a1 := setKey "WM/TrackNumber" (.str (toString track)) audio
  if optIntTruthy total then setKey "WM/TrackTotal" (.str (pyStrOptInt total)) a1
  else if hasKey "WM/TrackTotal" a1 then delKey "WM/TrackTotal" a1
  else a1

/-- `ASFTagHandler.set_field`. -/
def asfSetField (field : String) (value : Value)
    (audio : List (String × ASFValue)) :
    Except String (List (String × ASFValue)) :=
  if field = "title" then .ok (setKey "Title" (asASFValue value) audio)
  else if field = "subtitle" then .ok (setKey "WM/SubTitle" (asASFValue value) audio)
  else if field = "comments" then .ok (setKey "WM/Comments" (asASFValue value) audio)
  else if field = "artists" then
    match value with
    | .vStrList l => .ok (setKey "Author" (.str (String.intercalate "; " l)) audio)
    | _ => .error "can only join an iterable of str"
  else if field = "album_artist" then
    .ok (setKey "WM/AlbumArtist" (asASFValue value) audio)
  else if field = "album" then .ok (setKey "WM/AlbumTitle" (asASFValue value) audio)
  else if field = "year" then .ok (setKey "WM/Year" (asASFValue value) audio)
  else if field = "track_number" then
    match value with
    | .vTrack track total => .ok (asfTrackUpdate track total audio)
    | _ => .error "cannot unpack non-iterable value"
  else if field = "genre" then .ok (setKey "WM/Genre" (asASFValue value) audio)
  else if field = "rating" then
    match pyInt value with
    | .ok r =>
        .ok (setKey "WM/SharedUserRating" (.int (dictGetD RATING_TO_ASF r 0)) audio)
    | .error e => .error e
  else .ok audio

/-! ## File classifier and batch apply engine -/

/-- The four encoder variants. -/
inductive HandlerKind where
  | mp3
  | mp4
  | flac
  | asf
deriving DecidableEq, Repr

/-- `SUFFIX_HANDLER_MAP`, built from `HANDLER_CLASSES` in declaration order. -/
def SUFFIX_HANDLER_MAP : List (String × HandlerKind) :=
  [(".mp3", .mp3),
   (".m4a", .mp4), (".m4b", .mp4), (".m4p", .mp4), (".m4r", .mp4),
   (".mp4", .mp4), (".m4v", .mp4),
   (".flac", .flac),
   (".wma", .asf), (".asf", .asf)]

/-- `SUFFIX_HANDLER_MAP.get(path.suffix.lower())` of `get_handler_for_path`. -/
def getHandlerKind (suffix : String) : Option HandlerKind :=
  (SUFFIX_HANDLER_MAP.find? (fun p => p.1 == strLower suffix)).map Prod.snd

/-- A file path; `pathlib` derivations (`name`, `suffix`) are carried as
fields rather than re-implemented. -/
structure MPath where
  pathStr : String
  name : String
  suffix : String
deriving DecidableEq, Repr

/-- `UpdateResult` from `src/metadata_logic.py`. -/
structure UpdateResult where
  path : MPath
  success : Bool
  message : String := ""
deriving DecidableEq, Repr

/-- One loaded tag container of any of the four formats. -/
inductive Container where
  | mp3 (frames : List ID3Frame)
  | mp4 (m : List (String × MP4Value))
  | flac (m : List (String × List String))
  | asf (m : List (String × ASFValue))
deriving DecidableEq, Repr

/-- Polymorphic `set_field` dispatch over the loaded container. -/
def Container.setField : Container → String → Value → Except String Container
  | .mp3 a, f, v => (mp3SetField f v a).map Container.mp3
  | .mp4 a, f, v => (mp4SetField f v a).map Container.mp4
  | .flac a, f, v => (flacSetField f v a).map Container.flac
  | .asf a, f, v => (asfSetField f v a).map Container.asf

/-- The `set_field` loop of `BaseTagHandler.apply` (everything before
`save`). -/
def applyFields (c : Container) (updates : List (String × Value)) :
    Except String Container :=
  updates.foldlM (fun acc fv => acc.setField fv.1 fv.2) c

/-- The file-system environment of one batch: what `load` yields for a path
(`.error` when the constructor raises) and whether `save` raises. -/
structure World where
  load : MPath → HandlerKind → Except String Container
  save : MPath → Container → Option String

/-- The per-file body of `apply_metadata_to_files`: classify, load, apply
every field, save, with every exception converted into a failed
`UpdateResult` carrying the exception message. -/
def processFile (w : World) (updates : List (String × Value)) (p : MPath) :
    UpdateResult :=
  match getHandlerKind p.suffix with
  | none => { path := p, success := false, message := "Unsupported file type: " ++ p.suffix }
  | some k =>
      match w.load p k with
      | .error e => { path := p, success := false, message := e }
      | .ok c =>
          match applyFields c updates with
          | .error e => { path := p, success := false, message := e }
          | .ok c2 =>
              match w.save p c2 with
              | some e => { path := p, success := false, message := e }
              | none => { path := p, success := true, message := "" }

/-- `apply_metadata_to_files` from `src/metadata_logic.py` (the progress-bar
calls are display-only and do not affect the results). -/
def apply_metadata_to_files (w : World) (paths : List MPath)
    (updates : List (String × Value)) : List UpdateResult :=
  paths.map (processFile w updates)

/-- The apply gate of `main` in `src/app.py`: collect updates; any
validation error blocks the batch, an empty update set is "nothing to do";
only otherwise is `apply_metadata_to_files` invoked with the update set. -/
def mainApplyDecision (raw : List (String × Value)) :
    Option (List (String × Value)) :=
  let ue := collect_updates raw
  if ue.2 ≠ [] then none
  else if ue.1 = [] then none
  else some ue.1

/-! ## Preview reader -/

/-- The preview record of `read_metadata_preview`. -/
structure Preview where
  file : String
  title : String
  artists : String
  album : String
  year : String
  track : String
  genre : String
  path : String
deriving DecidableEq, Repr

/-- `join_values` on a list of display values (strings here; `str` applied
to each element of the Python list is the identity on them). -/
def join_values (values : List String) : String :=
  String.intercalate "; " ((values.map strTrim).filter (fun s => s ≠ ""))

/-- `tags.get(k, [])`. -/
def tagsGet (m : List (String × List String)) (k : String) : List String :=
  match m.find? (fun p => p.1 == k) with
  | some p => p.2
  | none => []

/-- Python `a or b` on two lists. -/
def listOr (a b : List String) : List String := if a = [] then b else a

/-- What the file system yields to `read_metadata_preview` for one path:
`easy` is `getattr(MutagenFile(path, easy=True), "tags", None)` with the
surrounding `try` folded in (`none` when loading raised or there are no
tags); `asfTags` is the `ASF(path)` fallback with attribute values already
extracted (`.error` when that constructor raises). -/
structure PreviewSource where
  easy : Option (List (String × List String))
  asfTags : Except String (List (String × List String))

/-- The `.wma`/`.asf` fallback branch of `read_metadata_preview`. -/
def asfPreviewFallback (base : Preview) (p : MPath) (src : PreviewSource) :
    Preview :=
  if strLower p.suffix = ".wma" ∨ strLower p.suffix = ".asf" then
    match src.asfTags with
    | .ok tags =>
        { base with
          title := join_values (tagsGet tags "Title"),
          artists := join_values (tagsGet tags "Author"),
          album := join_values (tagsGet tags "WM/AlbumTitle"),
          year := join_values (tagsGet tags "WM/Year"),
          track := join_values (tagsGet tags "WM/TrackNumber"),
          genre := join_values (tagsGet tags "WM/Genre") }
    | .error _ => base
  else base

/-- `read_metadata_preview` from `src/metadata_logic.py`. -/
def read_metadata_preview (p : MPath) (src : PreviewSource) : Preview :=
  let base : Preview :=
    { file := p.name, title := "", artists := "", album := "", year := "",
      track := "", genre := "", path := p.pathStr }
  match src.easy with
  | some tags =>
      if tags ≠ [] then
        { base with
          title := join_values (tagsGet tags "title"),
          artists := join_values (tagsGet tags "artist"),
          album := join_values (tagsGet tags "album"),
          year := join_values (listOr (tagsGet tags "date") (tagsGet tags "year")),
          track := join_values (tagsGet tags "tracknumber"),
          genre := join_values (tagsGet tags "genre") }
      else asfPreviewFallback base p src
  | none => asfPreviewFallback base p src

/-! ## Concrete environments used to evaluate the batch engine -/

/-- A freshly created empty container of each format (for MP3 this is the
`ID3NoHeaderError` branch of `load`; for the others an empty tag set). -/
def emptyContainer : HandlerKind → Container
  | HandlerKind.mp3 => Container.mp3 []
  | HandlerKind.mp4 => Container.mp4 []
  | HandlerKind.flac => Container.flac []
  | HandlerKind.asf => Container.asf []

/-- A benign file system: every load yields an empty container and every
save succeeds. -/
def benignWorld : World where
  load := fun _ k => Except.ok (emptyContainer k)
  save := fun _ _ => none

/-! # Theorems -/

/-! ## Association-list and frame-list algebra (shared helpers) -/

theorem delKey_append {α : Type} (k : String) (a b : List (String × α)) :
    delKey k (a ++ b) = delKey k a ++ delKey k b := by
  simp [delKey, List.filter_append]

theorem delKey_idem {α : Type} (k : String) (m : List (String × α)) :
    delKey k (delKey k m) = delKey k m := by
  simp [delKey, List.filter_filter]

theorem delKey_setKey_same {α : Type} (k : String) (v : α) (m : List (String × α)) :
    delKey k (setKey k v m) = delKey k m := by
  simp [setKey, delKey_append, delKey_idem, delKey]

theorem setKey_setKey_same {α : Type} (k : String) (v1 v2 : α) (m : List (String × α)) :
    setKey k v2 (setKey k v1 m) = setKey k v2 m := by
  simp [setKey, delKey_append, delKey_idem, delKey]

theorem hasKey_false_delKey {α : Type} (k : String) (m : List (String × α))
    (h : hasKey k m = false) : delKey k m = m := by
  induction m with
  | nil => rfl
  | cons p t ih =>
      simp [hasKey, List.any_cons] at h
      have h2 : hasKey k t = false := by
        simp [hasKey]
        exact h.2
      simp [delKey, h.1, List.filter_cons]
      simpa [delKey] using ih h2

theorem delKey_comm {α : Type} (k k' : String) (m : List (String × α)) :
    delKey k (delKey k' m) = delKey k' (delKey k m) := by
  simp only [delKey, List.filter_filter]
  simp [Bool.and_comm]

theorem delKey_single_eq {α : Type} (k : String) (v : α) :
    delKey k [(k, v)] = [] := by
  simp [delKey]

theorem delKey_single_ne {α : Type} (k k' : String) (v : α) (h : ¬k' = k) :
    delKey k [(k', v)] = [(k', v)] := by
  simp [delKey, h]

theorem flacTrackUpdate_eq (t : Int) (tot : Option Int)
    (a : List (String × List String)) :
    flacTrackUpdate t tot a =
      if optIntTruthy tot then
        setKey "tracktotal" [pyStrOptInt tot] (setKey "tracknumber" [toString t] a)
      else delKey "tracktotal" (setKey "tracknumber" [toString t] a) := by
  unfold flacTrackUpdate
  by_cases h1 : optIntTruthy tot
  · simp [h1]
  · by_cases h2 : hasKey "tracktotal" (setKey "tracknumber" [toString t] a)
    · simp [h1, h2]
    · simp only [Bool.not_eq_true] at h2
      simp [h1, h2, hasKey_false_delKey _ _ h2]

theorem asfTrackUpdate_eq (t : Int) (tot : Option Int)
    (a : List (String × ASFValue)) :
    asfTrackUpdate t tot a =
      if optIntTruthy tot then
        setKey "WM/TrackTotal" (.str (pyStrOptInt tot))
          (setKey "WM/TrackNumber" (.str (toString t)) a)
      else delKey "WM/TrackTotal" (setKey "WM/TrackNumber" (.str (toString t)) a) := by
  unfold asfTrackUpdate
  by_cases h1 : optIntTruthy tot
  · simp [h1]
  · by_cases h2 : hasKey "WM/TrackTotal" (setKey "WM/TrackNumber" (.str (toString t)) a)
    · simp [h1, h2]
    · simp only [Bool.not_eq_true] at h2
      simp [h1, h2, hasKey_false_delKey _ _ h2]

theorem delall_append (i : String) (a b : List ID3Frame) :
    delall i (a ++ b) = delall i a ++ delall i b := by
  simp [delall, List.filter_append]

theorem delall_idem (i : String) (a : List ID3Frame) :
    delall i (delall i a) = delall i a := by
  simp [delall, List.filter_filter]

theorem dictGetD_notMem (m : List (Int × Int)) (k d : Int)
    (h : ∀ p ∈ m, p.1 ≠ k) : dictGetD m k d = d := by
  unfold dictGetD
  have hn : m.find? (fun p => p.1 == k) = none := by
    rw [List.find?_eq_none]
    intro p hp
    simpa using h p hp
  rw [hn]

/-! ## C3: rating-scale conversion tables -/

/-- C3: for every canonical rating `r` in `0..5` and any current container
state, `set_field("rating", r)` writes exactly the tabulated value: ID3 POPM
bytes `(0,1,64,128,196,255)`, MP4 rates `(0,20,40,60,80,100)`, ASF
`SharedUserRating` `(0,1,25,50,75,99)`, and for FLAC/Vorbis the decimal
string of `r` itself with no scale conversion. -/
theorem claim_C3_rating_tables (r : Int) (h0 : 0 ≤ r) (h5 : r ≤ 5)
    (a : List ID3Frame) (m4 : List (String × MP4Value))
    (fl : List (String × List String)) (as : List (String × ASFValue)) :
    mp3SetField "rating" (.vInt r) a =
      .ok (delall "POPM" a ++
        [.popm "Windows Media Player 9 Series"
          (if r = 0 then 0 else if r = 1 then 1 else if r = 2 then 64
           else if r = 3 then 128 else if r = 4 then 196 else 255) 0]) ∧
    mp4SetField "rating" (.vInt r) m4 =
      .ok (setKey "rate"
        (.ints [if r = 0 then 0 else if r = 1 then 20 else if r = 2 then 40
                else if r = 3 then 60 else if r = 4 then 80 else 100]) m4) ∧
    asfSetField "rating" (.vInt r) as =
      .ok (setKey "WM/SharedUserRating"
        (.int (if r = 0 then 0 else if r = 1 then 1 else if r = 2 then 25
               else if r = 3 then 50 else if r = 4 then 75 else 99)) as) ∧
    flacSetField "rating" (.vInt r) fl =
      .ok (setKey "rating" [toString r] fl) := by
  interval_cases r <;> exact ⟨rfl, rfl, rfl, rfl⟩

/-- Witness for C3 at rating 3 on empty containers: POPM byte 128, MP4 rate
60, ASF SharedUserRating 50, FLAC string "3". -/
theorem claim_C3_witness :
    mp3SetField "rating" (.vInt 3) [] =
      .ok [.popm "Windows Media Player 9 Series" 128 0] ∧
    mp4SetField "rating" (.vInt 3) [] = .ok [("rate", .ints [60])] ∧
    asfSetField "rating" (.vInt 3) [] = .ok [("WM/SharedUserRating", .int 50)] ∧
    flacSetField "rating" (.vInt 3) [] = .ok [("rating", ["3"])] := by
  obtain ⟨h1, h2, h3, h4⟩ :=
    claim_C3_rating_tables 3 (by decide) (by decide) [] [] [] []
  refine ⟨?_, ?_, ?_, ?_⟩
  · rw [h1]; decide
  · rw [h2]; decide
  · rw [h3]; decide
  · rw [h4]; decide

/-! ## C1: behaviour of `set_field("rating", v)` on bad rating values -/

/-- C1 counterexample: the claim "out-of-range or unparsable rating values
write the format's 0-value and never fail" is false on the code: FLAC stores
`str(value)` with no table lookup, so rating 7 writes `"7"` (not `"0"`), and
a rating value unparsable as an integer makes MP3's `int(value)` raise
`ValueError`, so `set_field` does fail. -/
theorem claim_C1_counterexample :
    flacSetField "rating" (.vInt 7) [] = .ok [("rating", ["7"])] ∧
    (["7"] : List String) ≠ ["0"] ∧
    mp3SetField "rating" (.vStr "zz") [] =
      .error ("invalid literal for int() with base 10: " ++ pyQuote ++ "zz" ++ pyQuote) := by
  exact ⟨by decide, by decide, by decide⟩

/-- C1 amended: for an out-of-range *integer* rating `n`, the three handlers
with a conversion table (MP3, MP4, ASF) do not fail and write the format's
0-value; FLAC does not fail but writes the decimal string of `n` itself (no
clamping to 0). A rating value unparsable as an integer makes MP3, MP4 and
ASF `set_field` raise `ValueError` from `int(value)`, while FLAC stores the
string unchanged. -/
theorem claim_C1_amended (n : Int) (h : n < 0 ∨ 5 < n) (s : String)
    (hs : pyParseInt s = none)
    (a : List ID3Frame) (m4 : List (String × MP4Value))
    (fl : List (String × List String)) (as : List (String × ASFValue)) :
    mp3SetField "rating" (.vInt n) a =
      .ok (delall "POPM" a ++ [.popm "Windows Media Player 9 Series" 0 0]) ∧
    mp4SetField "rating" (.vInt n) m4 = .ok (setKey "rate" (.ints [0]) m4) ∧
    asfSetField "rating" (.vInt n) as =
      .ok (setKey "WM/SharedUserRating" (.int 0) as) ∧
    flacSetField "rating" (.vInt n) fl = .ok (setKey "rating" [toString n] fl) ∧
    mp3SetField "rating" (.vStr s) a =
      .error ("invalid literal for int() with base 10: " ++ pyQuote ++ s ++ pyQuote) ∧
    mp4SetField "rating" (.vStr s) m4 =
      .error ("invalid literal for int() with base 10: " ++ pyQuote ++ s ++ pyQuote) ∧
    asfSetField "rating" (.vStr s) as =
      .error ("invalid literal for int() with base 10: " ++ pyQuote ++ s ++ pyQuote) ∧
    flacSetField "rating" (.vStr s) fl = .ok (setKey "rating" [s] fl) := by
  have hne : ∀ m : List (Int × Int),
      (∀ p ∈ m, 0 ≤ p.1 ∧ p.1 ≤ 5) → dictGetD m n 0 = 0 := by
    intro m hm
    refine dictGetD_notMem m n 0 ?_
    intro p hp
    have := hm p hp
    omega
  have hpopm : dictGetD RATING_TO_POPM n 0 = 0 := by
    refine hne RATING_TO_POPM ?_
    intro p hp
    fin_cases hp <;> simp
  have hmp4 : dictGetD RATING_TO_MP4 n 0 = 0 := by
    refine hne RATING_TO_MP4 ?_
    intro p hp
    fin_cases hp <;> simp
  have hasf : dictGetD RATING_TO_ASF n 0 = 0 := by
    refine hne RATING_TO_ASF ?_
    intro p hp
    fin_cases hp <;> simp
  refine ⟨?_, ?_, ?_, ?_, ?_, ?_, ?_, ?_⟩ <;>
    simp [mp3SetField, mp4SetField, asfSetField, flacSetField, pyInt, pyStr,
      hs, hpopm, hmp4, hasf]

/-- Witness for C1 amended at `n = 7` and the unparsable string `"zz"`. -/
theorem claim_C1_amended_witness :
    ((7 : Int) < 0 ∨ (5 : Int) < 7) ∧ pyParseInt "zz" = none ∧
    (mp3SetField "rating" (.vInt 7) [] =
      .ok (delall "POPM" [] ++ [.popm "Windows Media Player 9 Series" 0 0]) ∧
     mp4SetField "rating" (.vInt 7) [] = .ok (setKey "rate" (.ints [0]) []) ∧
     asfSetField "rating" (.vInt 7) [] =
      .ok (setKey "WM/SharedUserRating" (.int 0) []) ∧
     flacSetField "rating" (.vInt 7) [] =
      .ok (setKey "rating" [toString (7 : Int)] []) ∧
     mp3SetField "rating" (.vStr "zz") [] =
      .error ("invalid literal for int() with base 10: " ++ pyQuote ++ "zz" ++ pyQuote) ∧
     mp4SetField "rating" (.vStr "zz") [] =
      .error ("invalid literal for int() with base 10: " ++ pyQuote ++ "zz" ++ pyQuote) ∧
     asfSetField "rating" (.vStr "zz") [] =
      .error ("invalid literal for int() with base 10: " ++ pyQuote ++ "zz" ++ pyQuote) ∧
     flacSetField "rating" (.vStr "zz") [] = .ok (setKey "rating" ["zz"] [])) :=
  ⟨by decide, by decide,
   claim_C1_amended 7 (by decide) "zz" (by decide) [] [] [] []⟩

/-! ## C9: unrecognized field names fall through silently -/

/-- C9: on every encoder variant, `set_field` with a field name outside the
ten canonical fields returns without raising and leaves the tag container
unchanged. -/
theorem claim_C9_unknown_field (c : Container) (f : String) (v : Value)
    (h : f ∉ canonicalFieldNames) : c.setField f v = .ok c := by
  simp [canonicalFieldNames] at h
  obtain ⟨h1, h2, h3, h4, h5, h6, h7, h8, h9, h10⟩ := h
  cases c <;>
    simp [Container.setField, mp3SetField, mp4SetField, flacSetField,
      asfSetField, Except.map, h1, h2, h3, h4, h5, h6, h7, h8, h9, h10]

/-- Witness for C9 at the field name `"bogus"` on each variant. -/
theorem claim_C9_witness :
    ("bogus" ∉ canonicalFieldNames) ∧
    (Container.mp3 []).setField "bogus" (.vStr "x") = .ok (Container.mp3 []) ∧
    (Container.mp4 []).setField "bogus" (.vStr "x") = .ok (Container.mp4 []) ∧
    (Container.flac []).setField "bogus" (.vStr "x") = .ok (Container.flac []) ∧
    (Container.asf []).setField "bogus" (.vStr "x") = .ok (Container.asf []) :=
  ⟨by decide,
   claim_C9_unknown_field (Container.mp3 []) "bogus" (.vStr "x") (by decide),
   claim_C9_unknown_field (Container.mp4 []) "bogus" (.vStr "x") (by decide),
   claim_C9_unknown_field (Container.flac []) "bogus" (.vStr "x") (by decide),
   claim_C9_unknown_field (Container.asf []) "bogus" (.vStr "x") (by decide)⟩

/-! ## C10: a zero track total is treated as no total -/

/-- C10: `"0/0"` parses to `(0, 0)` (allowed since `total ≥ track`), and for
any parsed track value with total component 0 every encoder treats the zero
total as if no total were given: MP3 writes TRCK text `"t"` (not `"t/0"`),
FLAC removes any existing `tracktotal` key, ASF removes any existing
`WM/TrackTotal` attribute, and MP4 stores the pair `(t, 0)`. -/
theorem claim_C10_zero_total (t : Int)
    (a : List ID3Frame) (m4 : List (String × MP4Value))
    (fl : List (String × List String)) (as : List (String × ASFValue)) :
    parse_track_number (.vStr "0/0") = .ok (some (0, some 0)) ∧
    mp3SetField "track_number" (.vTrack t (some 0)) a =
      .ok (delall "TRCK" a ++ [.textFrame "TRCK" [toString t]]) ∧
    flacSetField "track_number" (.vTrack t (some 0)) fl =
      .ok (delKey "tracktotal" (setKey "tracknumber" [toString t] fl)) ∧
    asfSetField "track_number" (.vTrack t (some 0)) as =
      .ok (delKey "WM/TrackTotal" (setKey "WM/TrackNumber" (.str (toString t)) as)) ∧
    mp4SetField "track_number" (.vTrack t (some 0)) m4 =
      .ok (setKey "trkn" (.pairs [(t, 0)]) m4) := by
  refine ⟨by decide, ?_, ?_, ?_, ?_⟩
  · simp [mp3SetField, optIntTruthy]
  · simp [flacSetField, flacTrackUpdate_eq, optIntTruthy]
  · simp [asfSetField, asfTrackUpdate_eq, optIntTruthy]
  · simp [mp4SetField, optIntTruthy]

/-! ## C5: independent validation with aggregated errors -/

/-- The fold of `collect_updates`, generalized over the accumulator: each
input contributes independently to the update set and the error list. -/
theorem collect_foldl (raw : List (String × Value))
    (acc : List (String × Value) × List String) :
    raw.foldl collectStep acc =
      (acc.1 ++ raw.filterMap keepField, acc.2 ++ raw.filterMap fieldError) := by
  induction raw generalizing acc with
  | nil => simp
  | cons nv rest ih =>
      rw [List.foldl_cons, ih]
      unfold collectStep keepField fieldError
      cases hr : runFieldParser nv.1 nv.2 with
      | error msg => simp [hr, List.filterMap_cons]
      | ok parsed =>
          by_cases h1 : isNoneValue parsed
          · simp [hr, h1, List.filterMap_cons]
          · by_cases h2 : isEmptyListValue parsed
            · simp [hr, h1, h2, List.filterMap_cons]
            · simp [hr, h1, h2, List.filterMap_cons]

/-- C5: `collect_updates` validates every field independently: the error
list is exactly the label-prefixed message of each failing field in input
order (validation never stops at the first error), and the update set is
exactly the fields whose parse succeeded with a value that is neither `None`
nor an empty list — fields that errored or parsed to nothing never reach the
encoders. -/
theorem claim_C5_collect_updates (raw : List (String × Value)) :
    collect_updates raw = (raw.filterMap keepField, raw.filterMap fieldError) := by
  simpa using collect_foldl raw ([], [])

/-! ## C6: an empty update set mutates nothing -/

/-- C6: applying an empty Canonical Field Set performs no `set_field` call,
leaving any container unchanged, and when validation produces no fields the
caller in `app.py` treats it as "nothing to do" and never invokes
`apply_metadata_to_files` (so no file is touched). -/
theorem claim_C6_empty_updates (raw : List (String × Value)) (c : Container)
    (h : (collect_updates raw).1 = []) :
    applyFields c [] = .ok c ∧ mainApplyDecision raw = none := by
  refine ⟨rfl, ?_⟩
  by_cases he : (collect_updates raw).2 = [] <;> simp [mainApplyDecision, h, he]

/-- Witness for C6: a blank title parses to no fields and the caller applies
nothing. -/
theorem claim_C6_witness :
    (collect_updates [("title", Value.vStr "   ")]).1 = [] ∧
    (applyFields (Container.mp3 []) [] = .ok (Container.mp3 []) ∧
     mainApplyDecision [("title", Value.vStr "   ")] = none) :=
  ⟨by decide,
   claim_C6_empty_updates [("title", Value.vStr "   ")] (Container.mp3 []) (by decide)⟩

/-! ## C2: batch apply with per-file failure isolation -/

/-- C2: `apply_metadata_to_files` returns one result per input path in input
order, where each result is a function of that path alone (failures of other
files cannot affect it); an unsupported extension yields a failure with
message `"Unsupported file type: <ext>"`; every per-file failure (load,
`set_field`, save) is caught and recorded with the underlying cause message
rather than propagated; and a successful result carries the empty message. -/
theorem claim_C2_batch_apply (w : World) (paths : List MPath)
    (updates : List (String × Value)) :
    (apply_metadata_to_files w paths updates).length = paths.length ∧
    (∀ i : Nat, (apply_metadata_to_files w paths updates)[i]? =
      (paths[i]?).map (processFile w updates)) ∧
    (∀ p : MPath, getHandlerKind p.suffix = none →
      processFile w updates p =
        { path := p, success := false,
          message := "Unsupported file type: " ++ p.suffix }) ∧
    (∀ p : MPath, (processFile w updates p).success = true →
      (processFile w updates p).message = "") ∧
    (∀ p k e, getHandlerKind p.suffix = some k → w.load p k = .error e →
      processFile w updates p = { path := p, success := false, message := e }) ∧
    (∀ p k c e, getHandlerKind p.suffix = some k → w.load p k = .ok c →
      applyFields c updates = .error e →
      processFile w updates p = { path := p, success := false, message := e }) ∧
    (∀ p k c c2 e, getHandlerKind p.suffix = some k → w.load p k = .ok c →
      applyFields c updates = .ok c2 → w.save p c2 = some e →
      processFile w updates p = { path := p, success := false, message := e }) := by
  refine ⟨?_, ?_, ?_, ?_, ?_, ?_, ?_⟩
  · simp [apply_metadata_to_files]
  · intro i
    simp [apply_metadata_to_files]
  · intro p h
    simp [processFile, h]
  · intro p
    unfold processFile
    repeat' split
    all_goals simp
  · intro p k e hk hl
    simp [processFile, hk, hl]
  · intro p k c e hk hl ha
    simp [processFile, hk, hl, ha]
  · intro p k c c2 e hk hl ha hs
    simp [processFile, hk, hl, ha, hs]

/-- Witness for C2: the spec's batch-isolation example — `[a.mp3, b.txt,
c.flac]` with rating 3 on a benign file system yields success, unsupported-
type failure, success, in order. -/
theorem claim_C2_witness :
    getHandlerKind ".txt" = none ∧
    (processFile benignWorld [("rating", Value.vInt 3)] ⟨"b.txt", "b.txt", ".txt"⟩ =
      { path := ⟨"b.txt", "b.txt", ".txt"⟩, success := false,
        message := "Unsupported file type: .txt" }) ∧
    apply_metadata_to_files benignWorld
      [⟨"a.mp3", "a.mp3", ".mp3"⟩, ⟨"b.txt", "b.txt", ".txt"⟩,
       ⟨"c.flac", "c.flac", ".flac"⟩]
      [("rating", Value.vInt 3)] =
      [⟨⟨"a.mp3", "a.mp3", ".mp3"⟩, true, ""⟩,
       ⟨⟨"b.txt", "b.txt", ".txt"⟩, false, "Unsupported file type: .txt"⟩,
       ⟨⟨"c.flac", "c.flac", ".flac"⟩, true, ""⟩] :=
  ⟨by decide,
   (claim_C2_batch_apply benignWorld [] [("rating", Value.vInt 3)]).2.2.1
     ⟨"b.txt", "b.txt", ".txt"⟩ (by decide),
   by decide⟩

/-! ## C8: best-effort preview reads -/

theorem asfFallback_file_path (base : Preview) (p : MPath) (src : PreviewSource) :
    (asfPreviewFallback base p src).file = base.file ∧
    (asfPreviewFallback base p src).path = base.path := by
  unfold asfPreviewFallback
  split
  · cases src.asfTags <;> simp
  · simp

theorem asfFallback_eq_base (base : Preview) (p : MPath) (src : PreviewSource)
    (h : (strLower p.suffix ≠ ".wma" ∧ strLower p.suffix ≠ ".asf") ∨
      ∃ e, src.asfTags = .error e) :
    asfPreviewFallback base p src = base := by
  unfold asfPreviewFallback
  rcases h with ⟨h1, h2⟩ | ⟨e, he⟩
  · rw [if_neg]
    simp [h1, h2]
  · split
    · rw [he]
    · rfl

/-- C8: `read_metadata_preview` is total (never raises — the two fallible
loads are parameters of `PreviewSource`, both wrapped) and always returns the
fixed record shape with `file` and `path` filled from the path; on any read
failure (no readable tags, and for `.wma`/`.asf` a failing ASF fallback) all
six metadata fields degrade to the blank string; when tags are readable,
multi-valued fields are joined via `join_values` (`"; "` separated). -/
theorem claim_C8_preview (p : MPath) (src : PreviewSource) :
    ((read_metadata_preview p src).file = p.name ∧
     (read_metadata_preview p src).path = p.pathStr) ∧
    ((src.easy = none ∨ src.easy = some []) →
      ((strLower p.suffix ≠ ".wma" ∧ strLower p.suffix ≠ ".asf") ∨
        (∃ e, src.asfTags = .error e)) →
      (read_metadata_preview p src).title = "" ∧
      (read_metadata_preview p src).artists = "" ∧
      (read_metadata_preview p src).album = "" ∧
      (read_metadata_preview p src).year = "" ∧
      (read_metadata_preview p src).track = "" ∧
      (read_metadata_preview p src).genre = "") ∧
    (∀ tags, src.easy = some tags → tags ≠ [] →
      (read_metadata_preview p src).title = join_values (tagsGet tags "title") ∧
      (read_metadata_preview p src).artists = join_values (tagsGet tags "artist") ∧
      (read_metadata_preview p src).year =
        join_values (listOr (tagsGet tags "date") (tagsGet tags "year"))) := by
  refine ⟨?_, ?_, ?_⟩
  · unfold read_metadata_preview
    cases he : src.easy with
    | none => simpa using asfFallback_file_path _ p src
    | some tags =>
        by_cases ht : tags = []
        · simpa [ht] using asfFallback_file_path _ p src
        · simp [ht]
  · intro he hasf
    have hb : ∀ base, asfPreviewFallback base p src = base :=
      fun base => asfFallback_eq_base base p src hasf
    rcases he with he | he <;> simp [read_metadata_preview, he, hb]
  · intro tags he ht
    simp [read_metadata_preview, he, ht]

/-- Witness for C8: an unreadable `.bin` file previews with all metadata
fields blank; a readable multi-valued artist list is joined with `"; "`
(blank entries dropped). -/
theorem claim_C8_witness :
    ((read_metadata_preview ⟨"x.bin", "x.bin", ".bin"⟩
        ⟨none, Except.error "unreadable"⟩).title = "" ∧
     (read_metadata_preview ⟨"x.bin", "x.bin", ".bin"⟩
        ⟨none, Except.error "unreadable"⟩).artists = "" ∧
     (read_metadata_preview ⟨"x.bin", "x.bin", ".bin"⟩
        ⟨none, Except.error "unreadable"⟩).album = "" ∧
     (read_metadata_preview ⟨"x.bin", "x.bin", ".bin"⟩
        ⟨none, Except.error "unreadable"⟩).year = "" ∧
     (read_metadata_preview ⟨"x.bin", "x.bin", ".bin"⟩
        ⟨none, Except.error "unreadable"⟩).track = "" ∧
     (read_metadata_preview ⟨"x.bin", "x.bin", ".bin"⟩
        ⟨none, Except.error "unreadable"⟩).genre = "") ∧
    (read_metadata_preview ⟨"y.mp3", "y.mp3", ".mp3"⟩
        ⟨some [("artist", ["The Cure", " ", "Anyma "])], Except.error "x"⟩).artists =
      "The Cure; Anyma" := by
  constructor
  · exact (claim_C8_preview ⟨"x.bin", "x.bin", ".bin"⟩
      ⟨none, Except.error "unreadable"⟩).2.1 (Or.inl rfl)
      (Or.inr ⟨"unreadable", rfl⟩)
  · rw [((claim_C8_preview ⟨"y.mp3", "y.mp3", ".mp3"⟩
      ⟨some [("artist", ["The Cure", " ", "Anyma "])], Except.error "x"⟩).2.2
      _ rfl (by decide)).2.1]
    decide

/-! ## C4: `parse_track_number` accepts N and N/M with the stated errors -/

/-- C4: `parse_track_number` trims its input (blank input yields no field)
and accepts `N` or `N/M`: it returns `(N, None)` or `(N, M)` when `N` parses
as a non-negative integer and, if present, `M` parses as an integer with
`M ≥ N`; the failure messages are "Track must be an integer." when `N` does
not parse, "Track must be positive." when `N` is negative, "Total tracks
must be an integer." when `M` is present but does not parse, and "Total
tracks cannot be smaller than the track number." when `M < N` (the two
integer-parse checks run before the sign/order checks, matching the code);
in particular `"5/12"` gives `(5, 12)` and `"12/5"` / `"abc"` give the
respective errors. -/
theorem claim_C4_parse_track_number (s : String) :
    (strTrim s = "" → parse_track_number (.vStr s) = .ok none) ∧
    (strTrim s ≠ "" →
      (pyParseInt (strTrim (splitSlashOnce (strTrim s)).1) = none →
        parse_track_number (.vStr s) = .error "Track must be an integer.") ∧
      (∀ n : Int, pyParseInt (strTrim (splitSlashOnce (strTrim s)).1) = some n →
        (strTrim (splitSlashOnce (strTrim s)).2 = "" →
          (n < 0 → parse_track_number (.vStr s) = .error "Track must be positive.") ∧
          (0 ≤ n → parse_track_number (.vStr s) = .ok (some (n, none)))) ∧
        (strTrim (splitSlashOnce (strTrim s)).2 ≠ "" →
          (pyParseInt (strTrim (splitSlashOnce (strTrim s)).2) = none →
            parse_track_number (.vStr s) = .error "Total tracks must be an integer.") ∧
          (∀ m : Int, pyParseInt (strTrim (splitSlashOnce (strTrim s)).2) = some m →
            (n < 0 → parse_track_number (.vStr s) = .error "Track must be positive.") ∧
            (0 ≤ n → m < n → parse_track_number (.vStr s) =
              .error "Total tracks cannot be smaller than the track number.") ∧
            (0 ≤ n → n ≤ m → parse_track_number (.vStr s) =
              .ok (some (n, some m))))))) ∧
    parse_track_number (.vStr "5/12") = .ok (some (5, some 12)) ∧
    parse_track_number (.vStr "12/5") =
      .error "Total tracks cannot be smaller than the track number." ∧
    parse_track_number (.vStr "abc") = .error "Track must be an integer." := by
  refine ⟨?_, ?_, by decide, by decide, by decide⟩
  · intro h
    simp [parse_track_number, sanitize_text, pyStr, h]
  · intro h
    constructor
    · intro h1
      simp [parse_track_number, sanitize_text, pyStr, h, h1]
    · intro n hn
      constructor
      · intro h2
        constructor
        · intro hneg
          simp [parse_track_number, sanitize_text, pyStr, h, hn, h2, hneg]
        · intro hpos
          simp [parse_track_number, sanitize_text, pyStr, h, hn, h2,
            not_lt.mpr hpos]
      · intro h2
        constructor
        · intro h3
          simp [parse_track_number, sanitize_text, pyStr, h, hn, h2, h3]
        · intro m hm
          refine ⟨?_, ?_, ?_⟩
          · intro hneg
            simp [parse_track_number, sanitize_text, pyStr, h, hn, h2, hm, hneg]
          · intro hpos hlt
            simp [parse_track_number, sanitize_text, pyStr, h, hn, h2, hm,
              not_lt.mpr hpos, hlt]
          · intro hpos hle
            simp [parse_track_number, sanitize_text, pyStr, h, hn, h2, hm,
              not_lt.mpr hpos, not_lt.mpr hle]

/-- Witness for C4: the `N/M` success branch at `"5/12"` (track 5, total 12)
and the blank branch at `"   "`. -/
theorem claim_C4_witness :
    parse_track_number (.vStr "5/12") = .ok (some (5, some 12)) ∧
    parse_track_number (.vStr "   ") = .ok none :=
  ⟨(((((claim_C4_parse_track_number "5/12").2.1 (by decide)).2 5
      (by decide)).2 (by decide)).2 12 (by decide)).2.2 (by decide) (by decide),
   (claim_C4_parse_track_number "   ").1 (by decide)⟩

/-! ## C7: delete-then-add makes repeated `set_field` idempotent -/

theorem delall_textFrame_self (i : String) (txt : List String) :
    delall i [ID3Frame.textFrame i txt] = [] := by
  simp [delall, ID3Frame.fid]

theorem delall_comm_self (l d : String) (txt : List String) :
    delall "COMM" [ID3Frame.comm l d txt] = [] := by
  simp [delall, ID3Frame.fid]

theorem delall_popm_self (e : String) (r c : Int) :
    delall "POPM" [ID3Frame.popm e r c] = [] := by
  simp [delall, ID3Frame.fid]

theorem delKey_nil {α : Type} (k : String) :
    delKey k ([] : List (String × α)) = [] := rfl

theorem delKey_cons_eq {α : Type} (k : String) (v : α) (rest : List (String × α)) :
    delKey k ((k, v) :: rest) = delKey k rest := by
  simp [delKey]

theorem delKey_cons_ne {α : Type} (k k' : String) (v : α) (rest : List (String × α))
    (h : ¬k' = k) : delKey k ((k', v) :: rest) = (k', v) :: delKey k rest := by
  simp [delKey, h]

theorem flacTrackUpdate_twice (t1 t2 : Int) (tot1 tot2 : Option Int)
    (a : List (String × List String)) :
    flacTrackUpdate t2 tot2 (flacTrackUpdate t1 tot1 a) =
      flacTrackUpdate t2 tot2 a := by
  rw [flacTrackUpdate_eq, flacTrackUpdate_eq, flacTrackUpdate_eq]
  by_cases h1 : optIntTruthy tot1 <;> by_cases h2 : optIntTruthy tot2 <;>
    simp only [h1, h2, if_true, if_false, Bool.false_eq_true, setKey,
      delKey_append, delKey_idem, delKey_comm, delKey_nil, delKey_cons_eq,
      delKey_cons_ne, List.append_nil, List.append_assoc, List.nil_append,
      String.reduceEq, not_false_eq_true, List.cons_append]

theorem asfTrackUpdate_twice (t1 t2 : Int) (tot1 tot2 : Option Int)
    (a : List (String × ASFValue)) :
    asfTrackUpdate t2 tot2 (asfTrackUpdate t1 tot1 a) =
      asfTrackUpdate t2 tot2 a := by
  rw [asfTrackUpdate_eq, asfTrackUpdate_eq, asfTrackUpdate_eq]
  by_cases h1 : optIntTruthy tot1 <;> by_cases h2 : optIntTruthy tot2 <;>
    simp only [h1, h2, if_true, if_false, Bool.false_eq_true, setKey,
      delKey_append, delKey_idem, delKey_comm, delKey_nil, delKey_cons_eq,
      delKey_cons_ne, List.append_nil, List.append_assoc, List.nil_append,
      String.reduceEq, not_false_eq_true, List.cons_append]

theorem mp3SetField_twice (f : String) (X Y : Value) (a a1 : List ID3Frame)
    (h : mp3SetField f X a = .ok a1) :
    mp3SetField f Y a1 = mp3SetField f Y a := by
  by_cases h1 : f = "title"
  · subst h1
    simp only [mp3SetField, String.reduceEq, reduceIte] at h ⊢
    injection h with h
    subst h
    simp only [delall_append, delall_idem, delall_textFrame_self, List.append_nil]
  by_cases h2 : f = "subtitle"
  · subst h2
    simp only [mp3SetField, String.reduceEq, reduceIte] at h ⊢
    injection h with h
    subst h
    simp only [delall_append, delall_idem, delall_textFrame_self, List.append_nil]
  by_cases h3 : f = "comments"
  · subst h3
    simp only [mp3SetField, String.reduceEq, reduceIte] at h ⊢
    injection h with h
    subst h
    simp only [delall_append, delall_idem, delall_comm_self, List.append_nil]
  by_cases h4 : f = "artists"
  · subst h4
    simp only [mp3SetField, String.reduceEq, reduceIte] at h ⊢
    injection h with h
    subst h
    simp only [delall_append, delall_idem, delall_textFrame_self, List.append_nil]
  by_cases h5 : f = "album_artist"
  · subst h5
    simp only [mp3SetField, String.reduceEq, reduceIte] at h ⊢
    injection h with h
    subst h
    simp only [delall_append, delall_idem, delall_textFrame_self, List.append_nil]
  by_cases h6 : f = "album"
  · subst h6
    simp only [mp3SetField, String.reduceEq, reduceIte] at h ⊢
    injection h with h
    subst h
    simp only [delall_append, delall_idem, delall_textFrame_self, List.append_nil]
  by_cases h7 : f = "year"
  · subst h7
    simp only [mp3SetField, String.reduceEq, reduceIte] at h ⊢
    injection h with h
    subst h
    simp only [delall_append, delall_idem, delall_textFrame_self, List.append_nil]
  by_cases h8 : f = "track_number"
  · subst h8
    simp only [mp3SetField, String.reduceEq, reduceIte] at h ⊢
    cases X with
    | vTrack t tot =>
        injection h with h
        subst h
        cases Y with
        | vTrack t2 tot2 =>
            simp only [delall_append, delall_idem, delall_textFrame_self,
              List.append_nil]
        | vNone => rfl
        | vStr s2 => rfl
        | vStrList l2 => rfl
        | vInt n2 => rfl
    | vNone => exact Except.noConfusion h
    | vStr s1 => exact Except.noConfusion h
    | vStrList l1 => exact Except.noConfusion h
    | vInt n1 => exact Except.noConfusion h
  by_cases h9 : f = "genre"
  · subst h9
    simp only [mp3SetField, String.reduceEq, reduceIte] at h ⊢
    injection h with h
    subst h
    simp only [delall_append, delall_idem, delall_textFrame_self, List.append_nil]
  by_cases h10 : f = "rating"
  · subst h10
    simp only [mp3SetField, String.reduceEq, reduceIte] at h ⊢
    cases hx : pyInt X with
    | error e => rw [hx] at h; exact Except.noConfusion h
    | ok r =>
        rw [hx] at h
        injection h with h
        subst h
        cases hy : pyInt Y with
        | error e => rfl
        | ok r2 =>
            simp only [delall_append, delall_idem, delall_popm_self,
              List.append_nil]
  simp only [mp3SetField, if_neg h1, if_neg h2, if_neg h3, if_neg h4, if_neg h5,
    if_neg h6, if_neg h7, if_neg h8, if_neg h9, if_neg h10] at h ⊢
  injection h with h
  subst h
  rfl

theorem flacSetField_twice (f : String) (X Y : Value)
    (a a1 : List (String × List String))
    (h : flacSetField f X a = .ok a1) :
    flacSetField f Y a1 = flacSetField f Y a := by
  by_cases h1 : f = "title"
  · subst h1
    simp only [flacSetField, String.reduceEq, reduceIte] at h ⊢
    injection h with h
    subst h
    simp only [setKey_setKey_same]
  by_cases h2 : f = "subtitle"
  · subst h2
    simp only [flacSetField, String.reduceEq, reduceIte] at h ⊢
    injection h with h
    subst h
    simp only [setKey_setKey_same]
  by_cases h3 : f = "comments"
  · subst h3
    simp only [flacSetField, String.reduceEq, reduceIte] at h ⊢
    injection h with h
    subst h
    simp only [setKey_setKey_same]
  by_cases h4 : f = "artists"
  · subst h4
    simp only [flacSetField, String.reduceEq, reduceIte] at h ⊢
    injection h with h
    subst h
    simp only [setKey_setKey_same]
  by_cases h5 : f = "album_artist"
  · subst h5
    simp only [flacSetField, String.reduceEq, reduceIte] at h ⊢
    injection h with h
    subst h
    simp only [setKey_setKey_same]
  by_cases h6 : f = "album"
  · subst h6
    simp only [flacSetField, String.reduceEq, reduceIte] at h ⊢
    injection h with h
    subst h
    simp only [setKey_setKey_same]
  by_cases h7 : f = "year"
  · subst h7
    simp only [flacSetField, String.reduceEq, reduceIte] at h ⊢
    injection h with h
    subst h
    simp only [setKey_setKey_same]
  by_cases h8 : f = "track_number"
  · subst h8
    simp only [flacSetField, String.reduceEq, reduceIte] at h ⊢
    cases X with
    | vTrack t tot =>
        injection h with h
        subst h
        cases Y with
        | vTrack t2 tot2 => simp only [flacTrackUpdate_twice]
        | vNone => rfl
        | vStr s2 => rfl
        | vStrList l2 => rfl
        | vInt n2 => rfl
    | vNone => exact Except.noConfusion h
    | vStr s1 => exact Except.noConfusion h
    | vStrList l1 => exact Except.noConfusion h
    | vInt n1 => exact Except.noConfusion h
  by_cases h9 : f = "genre"
  · subst h9
    simp only [flacSetField, String.reduceEq, reduceIte] at h ⊢
    injection h with h
    subst h
    simp only [setKey_setKey_same]
  by_cases h10 : f = "rating"
  · subst h10
    simp only [flacSetField, String.reduceEq, reduceIte] at h ⊢
    injection h with h
    subst h
    simp only [setKey_setKey_same]
  simp only [flacSetField, if_neg h1, if_neg h2, if_neg h3, if_neg h4, if_neg h5,
    if_neg h6, if_neg h7, if_neg h8, if_neg h9, if_neg h10] at h ⊢
  injection h with h
  subst h
  rfl

theorem mp4SetField_twice (f : String) (X Y : Value)
    (a a1 : List (String × MP4Value))
    (h : mp4SetField f X a = .ok a1) :
    mp4SetField f Y a1 = mp4SetField f Y a := by
  by_cases h1 : f = "title"
  · subst h1
    simp only [mp4SetField, String.reduceEq, reduceIte] at h ⊢
    injection h with h
    subst h
    simp only [setKey_setKey_same]
  by_cases h2 : f = "subtitle"
  · subst h2
    simp only [mp4SetField, String.reduceEq, reduceIte] at h ⊢
    cases X with
    | vStr s1 =>
        injection h with h
        subst h
        cases Y with
        | vStr s2 => simp only [setKey_setKey_same]
        | vNone => rfl
        | vStrList l2 => rfl
        | vTrack t2 tot2 => rfl
        | vInt n2 => rfl
    | vNone => exact Except.noConfusion h
    | vStrList l1 => exact Except.noConfusion h
    | vTrack t1 tot1 => exact Except.noConfusion h
    | vInt n1 => exact Except.noConfusion h
  by_cases h3 : f = "comments"
  · subst h3
    simp only [mp4SetField, String.reduceEq, reduceIte] at h ⊢
    injection h with h
    subst h
    simp only [setKey_setKey_same]
  by_cases h4 : f = "artists"
  · subst h4
    simp only [mp4SetField, String.reduceEq, reduceIte] at h ⊢
    injection h with h
    subst h
    simp only [setKey_setKey_same]
  by_cases h5 : f = "album_artist"
  · subst h5
    simp only [mp4SetField, String.reduceEq, reduceIte] at h ⊢
    injection h with h
    subst h
    simp only [setKey_setKey_same]
  by_cases h6 : f = "album"
  · subst h6
    simp only [mp4SetField, String.reduceEq, reduceIte] at h ⊢
    injection h with h
    subst h
    simp only [setKey_setKey_same]
  by_cases h7 : f = "year"
  · subst h7
    simp only [mp4SetField, String.reduceEq, reduceIte] at h ⊢
    injection h with h
    subst h
    simp only [setKey_setKey_same]
  by_cases h8 : f = "track_number"
  · subst h8
    simp only [mp4SetField, String.reduceEq, reduceIte] at h ⊢
    cases X with
    | vTrack t tot =>
        injection h with h
        subst h
        cases Y with
        | vTrack t2 tot2 => simp only [setKey_setKey_same]
        | vNone => rfl
        | vStr s2 => rfl
        | vStrList l2 => rfl
        | vInt n2 => rfl
    | vNone => exact Except.noConfusion h
    | vStr s1 => exact Except.noConfusion h
    | vStrList l1 => exact Except.noConfusion h
    | vInt n1 => exact Except.noConfusion h
  by_cases h9 : f = "genre"
  · subst h9
    simp only [mp4SetField, String.reduceEq, reduceIte] at h ⊢
    injection h with h
    subst h
    simp only [setKey_setKey_same]
  by_cases h10 : f = "rating"
  · subst h10
    simp only [mp4SetField, String.reduceEq, reduceIte] at h ⊢
    cases hx : pyInt X with
    | error e => rw [hx] at h; exact Except.noConfusion h
    | ok r =>
        rw [hx] at h
        injection h with h
        subst h
        cases hy : pyInt Y with
        | error e => rfl
        | ok r2 => simp only [setKey_setKey_same]
  simp only [mp4SetField, if_neg h1, if_neg h2, if_neg h3, if_neg h4, if_neg h5,
    if_neg h6, if_neg h7, if_neg h8, if_neg h9, if_neg h10] at h ⊢
  injection h with h
  subst h
  rfl

theorem asfSetField_twice (f : String) (X Y : Value)
    (a a1 : List (String × ASFValue))
    (h : asfSetField f X a = .ok a1) :
    asfSetField f Y a1 = asfSetField f Y a := by
  by_cases h1 : f = "title"
  · subst h1
    simp only [asfSetField, String.reduceEq, reduceIte] at h ⊢
    injection h with h
    subst h
    simp only [setKey_setKey_same]
  by_cases h2 : f = "subtitle"
  · subst h2
    simp only [asfSetField, String.reduceEq, reduceIte] at h ⊢
    injection h with h
    subst h
    simp only [setKey_setKey_same]
  by_cases h3 : f = "comments"
  · subst h3
    simp only [asfSetField, String.reduceEq, reduceIte] at h ⊢
    injection h with h
    subst h
    simp only [setKey_setKey_same]
  by_cases h4 : f = "artists"
  · subst h4
    simp only [asfSetField, String.reduceEq, reduceIte] at h ⊢
    cases X with
    | vStrList l1 =>
        injection h with h
        subst h
        cases Y with
        | vStrList l2 => simp only [setKey_setKey_same]
        | vNone => rfl
        | vStr s2 => rfl
        | vTrack t2 tot2 => rfl
        | vInt n2 => rfl
    | vNone => exact Except.noConfusion h
    | vStr s1 => exact Except.noConfusion h
    | vTrack t1 tot1 => exact Except.noConfusion h
    | vInt n1 => exact Except.noConfusion h
  by_cases h5 : f = "album_artist"
  · subst h5
    simp only [asfSetField, String.reduceEq, reduceIte] at h ⊢
    injection h with h
    subst h
    simp only [setKey_setKey_same]
  by_cases h6 : f = "album"
  · subst h6
    simp only [asfSetField, String.reduceEq, reduceIte] at h ⊢
    injection h with h
    subst h
    simp only [setKey_setKey_same]
  by_cases h7 : f = "year"
  · subst h7
    simp only [asfSetField, String.reduceEq, reduceIte] at h ⊢
    injection h with h
    subst h
    simp only [setKey_setKey_same]
  by_cases h8 : f = "track_number"
  · subst h8
    simp only [asfSetField, String.reduceEq, reduceIte] at h ⊢
    cases X with
    | vTrack t tot =>
        injection h with h
        subst h
        cases Y with
        | vTrack t2 tot2 => simp only [asfTrackUpdate_twice]
        | vNone => rfl
        | vStr s2 => rfl
        | vStrList l2 => rfl
        | vInt n2 => rfl
    | vNone => exact Except.noConfusion h
    | vStr s1 => exact Except.noConfusion h
    | vStrList l1 => exact Except.noConfusion h
    | vInt n1 => exact Except.noConfusion h
  by_cases h9 : f = "genre"
  · subst h9
    simp only [asfSetField, String.reduceEq, reduceIte] at h ⊢
    injection h with h
    subst h
    simp only [setKey_setKey_same]
  by_cases h10 : f = "rating"
  · subst h10
    simp only [asfSetField, String.reduceEq, reduceIte] at h ⊢
    cases hx : pyInt X with
    | error e => rw [hx] at h; exact Except.noConfusion h
    | ok r =>
        rw [hx] at h
        injection h with h
        subst h
        cases hy : pyInt Y with
        | error e => rfl
        | ok r2 => simp only [setKey_setKey_same]
  simp only [asfSetField, if_neg h1, if_neg h2, if_neg h3, if_neg h4, if_neg h5,
    if_neg h6, if_neg h7, if_neg h8, if_neg h9, if_neg h10] at h ⊢
  injection h with h
  subst h
  rfl

/-- C7: on every encoder variant, for every field name and pair of values,
`set_field(f, X)` followed by `set_field(f, Y)` before `save` leaves the tag
container in exactly the state of `set_field(f, Y)` alone — only `Y` is
stored and no duplicate frames/attributes accumulate (for MP3/ID3 each
branch deletes all frames of the target ID before adding exactly one). -/
theorem claim_C7_set_field_idempotent (c c1 : Container) (f : String) (X Y : Value)
    (h : c.setField f X = .ok c1) : c1.setField f Y = c.setField f Y := by
  cases c with
  | mp3 a =>
      simp only [Container.setField] at h
      cases hm : mp3SetField f X a with
      | error e => rw [hm] at h; exact Except.noConfusion h
      | ok a2 =>
          rw [hm] at h
          simp only [Except.map] at h
          injection h with h
          subst h
          simp only [Container.setField]
          rw [mp3SetField_twice f X Y a a2 hm]
  | mp4 a =>
      simp only [Container.setField] at h
      cases hm : mp4SetField f X a with
      | error e => rw [hm] at h; exact Except.noConfusion h
      | ok a2 =>
          rw [hm] at h
          simp only [Except.map] at h
          injection h with h
          subst h
          simp only [Container.setField]
          rw [mp4SetField_twice f X Y a a2 hm]
  | flac a =>
      simp only [Container.setField] at h
      cases hm : flacSetField f X a with
      | error e => rw [hm] at h; exact Except.noConfusion h
      | ok a2 =>
          rw [hm] at h
          simp only [Except.map] at h
          injection h with h
          subst h
          simp only [Container.setField]
          rw [flacSetField_twice f X Y a a2 hm]
  | asf a =>
      simp only [Container.setField] at h
      cases hm : asfSetField f X a with
      | error e => rw [hm] at h; exact Except.noConfusion h
      | ok a2 =>
          rw [hm] at h
          simp only [Except.map] at h
          injection h with h
          subst h
          simp only [Container.setField]
          rw [asfSetField_twice f X Y a a2 hm]

/-- Witness for C7: MP3 title "X" then "Y" equals title "Y" alone. -/
theorem claim_C7_witness :
    (Container.mp3 []).setField "title" (.vStr "X") =
      .ok (Container.mp3 [.textFrame "TIT2" ["X"]]) ∧
    (Container.mp3 [.textFrame "TIT2" ["X"]]).setField "title" (.vStr "Y") =
      (Container.mp3 []).setField "title" (.vStr "Y") :=
  ⟨by decide,
   claim_C7_set_field_idempotent (Container.mp3 []) (Container.mp3 [.textFrame "TIT2" ["X"]])
     "title" (.vStr "X") (.vStr "Y") (by decide)⟩

end MusicMetaTagger
